import Mathlib

/-!
Shallow embedding of the `req` package: a caching, retrying HTTP fetch layer.

The filesystem is modelled as an association list from path to file entry;
the HTTP transport as a stream of responses indexed by invocation number;
`os.WriteFile` outcomes by a per-path error oracle.  `doRequest` is
instrumented to also report how many transport invocations and how many
cache-existence checks a call performs.
-/

namespace Req

/-- Configuration: the process-wide mutable settings that the fetch pipeline
reads (`defaultCachePath`, `defaultRetryCount`).  An empty `cachePath`
means caching is disabled, as in the source. -/
structure Config where
  cachePath : String
  retryCount : Nat
deriving Repr, DecidableEq

/-- Little-endian byte expansion: `toLEBytes n x` is the `n` low bytes of `x`. -/
def toLEBytes : Nat → Nat → List Nat
  | 0, _ => []
  | n + 1, x => (x % 256) :: toLEBytes n (x / 256)

/-- MD5 left-rotate of a 32-bit word. -/
def rotl32 (x n : Nat) : Nat :=
  ((x <<< n) ||| ((x % 2 ^ 32) >>> (32 - n))) % 2 ^ 32

/-- MD5 round constants (floor(abs(sin(i+1)) * 2^32)). -/
def md5K : List Nat :=
  [0xd76aa478, 0xe8c7b756, 0x242070db, 0xc1bdceee,
   0xf57c0faf, 0x4787c62a, 0xa8304613, 0xfd469501,
   0x698098d8, 0x8b44f7af, 0xffff5bb1, 0x895cd7be,
   0x6b901122, 0xfd987193, 0xa679438e, 0x49b40821,
   0xf61e2562, 0xc040b340, 0x265e5a51, 0xe9b6c7aa,
   0xd62f105d, 0x02441453, 0xd8a1e681, 0xe7d3fbc8,
   0x21e1cde6, 0xc33707d6, 0xf4d50d87, 0x455a14ed,
   0xa9e3e905, 0xfcefa3f8, 0x676f02d9, 0x8d2a4c8a,
   0xfffa3942, 0x8771f681, 0x6d9d6122, 0xfde5380c,
   0xa4beea44, 0x4bdecfa9, 0xf6bb4b60, 0xbebfbc70,
   0x289b7ec6, 0xeaa127fa, 0xd4ef3085, 0x04881d05,
   0xd9d4d039, 0xe6db99e5, 0x1fa27cf8, 0xc4ac5665,
   0xf4292244, 0x432aff97, 0xab9423a7, 0xfc93a039,
   0x655b59c3, 0x8f0ccc92, 0xffeff47d, 0x85845dd1,
   0x6fa87e4f, 0xfe2ce6e0, 0xa3014314, 0x4e0811a1,
   0xf7537e82, 0xbd3af235, 0x2ad7d2bb, 0xeb86d391]

/-- MD5 per-round left-rotate amounts. -/
def md5S : List Nat :=
  [7, 12, 17, 22, 7, 12, 17, 22, 7, 12, 17, 22, 7, 12, 17, 22,
   5, 9, 14, 20, 5, 9, 14, 20, 5, 9, 14, 20, 5, 9, 14, 20,
   4, 11, 16, 23, 4, 11, 16, 23, 4, 11, 16, 23, 4, 11, 16, 23,
   6, 10, 15, 21, 6, 10, 15, 21, 6, 10, 15, 21, 6, 10, 15, 21]

/-- MD5 round function and message-word index for round `i`. -/
def md5F (i b c d : Nat) : Nat × Nat :=
  if i < 16 then ((b &&& c) ||| (((2 ^ 32 - 1) ^^^ b) &&& d), i)
  else if i < 32 then ((d &&& b) ||| (((2 ^ 32 - 1) ^^^ d) &&& c), (5 * i + 1) % 16)
  else if i < 48 then (b ^^^ c ^^^ d, (3 * i + 5) % 16)
  else (c ^^^ (b ||| ((2 ^ 32 - 1) ^^^ d)), (7 * i) % 16)

/-- MD5 message padding: a 0x80 byte, zeros to 56 mod 64, then the original
bit length as a 64-bit little-endian quantity. -/
def padMessage (msg : List Nat) : List Nat :=
  let r := (msg.length + 1) % 64
  msg ++ [128] ++ List.replicate ((120 - r) % 64) 0 ++
    toLEBytes 8 ((msg.length * 8) % 2 ^ 64)

/-- Split a byte list into 64-byte chunks. -/
def chunks64 (l : List Nat) : List (List Nat) :=
  if h : l = [] then []
  else
    l.take 64 :: chunks64 (l.drop 64)
termination_by l.length
decreasing_by
  simp only [List.length_drop]
  have : l.length ≠ 0 := fun hz => h (List.eq_nil_of_length_eq_zero hz)
  omega

/-- The `i`-th little-endian 32-bit word of a 64-byte chunk. -/
def leWord (chunk : List Nat) (i : Nat) : Nat :=
  chunk.getD (4 * i) 0 + 256 * chunk.getD (4 * i + 1) 0 +
    65536 * chunk.getD (4 * i + 2) 0 + 16777216 * chunk.getD (4 * i + 3) 0

/-- One MD5 compression step over a chunk's word accessor. -/
def md5Round (M : Nat → Nat) (st : Nat × Nat × Nat × Nat) (i : Nat) :
    Nat × Nat × Nat × Nat :=
  let (a, b, c, d) := st
  let fg := md5F i b c d
  let f := (fg.1 + a + md5K.getD i 0 + M fg.2) % 2 ^ 32
  (d, (b + rotl32 f (md5S.getD i 0)) % 2 ^ 32, b, c)

/-- Process one 64-byte chunk, updating the running MD5 state. -/
def md5ProcessChunk (st : Nat × Nat × Nat × Nat) (chunk : List Nat) :
    Nat × Nat × Nat × Nat :=
  let r := (List.range 64).foldl (md5Round (leWord chunk)) st
  ((st.1 + r.1) % 2 ^ 32, (st.2.1 + r.2.1) % 2 ^ 32,
   (st.2.2.1 + r.2.2.1) % 2 ^ 32, (st.2.2.2 + r.2.2.2) % 2 ^ 32)

/-- MD5 digest (16 bytes) of a byte list. -/
def md5 (msg : List Nat) : List Nat :=
  let st := (chunks64 (padMessage msg)).foldl md5ProcessChunk
    (0x67452301, 0xefcdab89, 0x98badcfe, 0x10325476)
  toLEBytes 4 st.1 ++ toLEBytes 4 st.2.1 ++ toLEBytes 4 st.2.2.1 ++
    toLEBytes 4 st.2.2.2

/-- Lowercase hex digit for a value below 16. -/
def hexDigit (n : Nat) : Char :=
  if n < 10 then Char.ofNat (48 + n) else Char.ofNat (87 + n)

/-- Two lowercase hex digits of one byte. -/
def byteHex (b : Nat) : String :=
  String.mk [hexDigit (b / 16), hexDigit (b % 16)]

/-- Hex rendering of a byte list, as Go's "%x" verb produces. -/
def bytesToHex (bs : List Nat) : String :=
  String.join (bs.map byteHex)

/-- Source `md5sum`: hex-encoded MD5 digest of the bytes. -/
def md5sum (v : List Nat) : String :=
  bytesToHex (md5 v)

/-- UTF-8 bytes of a string, as Go's `[]byte(s)` conversion. -/
def strBytes (s : String) : List Nat :=
  s.toUTF8.toList.map (fun b => b.toNat)

/-- JSON escaping of one character: quote and backslash get a backslash
escape, other characters pass through (arguments are modelled as plain
printable strings). -/
def jsonEscapeChar (c : Char) : List Char :=
  if c = Char.ofNat 34 then [Char.ofNat 92, Char.ofNat 34]
  else if c = Char.ofNat 92 then [Char.ofNat 92, Char.ofNat 92]
  else [c]

/-- JSON rendering of one string value. -/
def jsonString (s : String) : String :=
  String.mk (Char.ofNat 34 :: ((s.data.map jsonEscapeChar).flatten ++ [Char.ofNat 34]))

/-- Model of `jsoniter.MarshalToString` on a slice of string arguments: a
JSON array of JSON strings. -/
def marshalToString (v : List String) : String :=
  "[" ++ String.intercalate "," (v.map jsonString) ++ "]"

/-- The serialized-args string `doRequest`'s key derivation uses: empty when
there are no variadic arguments, else the JSON marshalling. -/
def serializeArgs (v : List String) : String :=
  if v.length > 0 then marshalToString v else ""

/-- Source `cacheName`: empty when caching is disabled, otherwise
`<cachePath>/.<md5hex(url+args)>.<method>.cache`. -/
def cacheName (cfg : Config) (method url : String) (v : List String) : String :=
  if cfg.cachePath ≠ "" then
    cfg.cachePath ++ "/." ++ md5sum (strBytes (url ++ serializeArgs v)) ++
      "." ++ method ++ ".cache"
  else ""

/-- A file on disk: its byte content, plus an oracle saying whether reading
it fails (modelling `os.ReadFile` I/O errors on an existing file). -/
structure FileEntry where
  data : String
  readErr : Option String
deriving Repr, DecidableEq

/-- Filesystem model: an association list from path to file entry. -/
abbrev FS := List (String × FileEntry)

/-- Path lookup; first binding wins, so an overwrite that prepends shadows
older entries. -/
def FS.lookup : FS → String → Option FileEntry
  | [], _ => none
  | (k, e) :: rest, name => if k = name then some e else FS.lookup rest name

/-- Deletion of every binding at a path. -/
def FS.remove : FS → String → FS
  | [], _ => []
  | (k, e) :: rest, name =>
    if k = name then FS.remove rest name else (k, e) :: FS.remove rest name

/-- Model of `os.WriteFile` success: a create-or-truncate write, realised by
prepending a fresh readable entry. -/
def FS.put (fs : FS) (name body : String) : FS :=
  (name, ⟨body, none⟩) :: fs

/-- Model of `os.ReadFile`: the stored data with its read-error oracle, or an
error when the path is absent. -/
def FS.readFile (fs : FS) (name : String) : String × Option String :=
  match FS.lookup fs name with
  | some e => (e.data, e.readErr)
  | none => ("", some "no such file")

/-- Source `fileExist`: `os.Stat` succeeds exactly on present paths (an empty
path is never present, matching a failing `stat("")`). -/
def fileExist (fs : FS) (name : String) : Bool :=
  (FS.lookup fs name).isSome

/-- Source `fileRemove`: a no-op for an empty or absent name, otherwise the
deletion. -/
def fileRemove (fs : FS) (name : String) : FS :=
  if name.length > 0 ∧ fileExist fs name then FS.remove fs name else fs

/-- Error outcomes a fetch can produce, mirroring the wrapped error kinds of
the source. -/
inductive ReqError where
  | transportErr (msg : String)
  | statusCode (code : Nat)
  | cacheRead (msg : String)
  | cacheWrite (msg : String)
  | browser (msg : String)
  | subprocess (msg : String)
deriving Repr, DecidableEq

/-- One HTTP transport outcome: a connection-level error, or a response with
a status code and a body. -/
inductive TransportResult where
  | err (msg : String)
  | resp (status : Nat) (body : String)
deriving Repr, DecidableEq

/-- Environment of a fetch: the configuration, the transport collaborator as
a stream of outcomes indexed by invocation number, and the per-path
`os.WriteFile` failure oracle. -/
structure Env where
  cfg : Config
  transport : Nat → TransportResult
  writeErr : String → Option String

/-- Result of one logical fetch call: the returned value, the filesystem
after the call, and instrumentation counting transport invocations and
evaluations of the cache-existence check. -/
structure FetchOut where
  result : Except ReqError String
  fs : FS
  transportCalls : Nat
  cacheChecks : Nat
deriving Repr

/-- The 200-status tail of `doRequest`: persist the body when caching is
enabled, turning a write failure into a hard error. -/
def successOut (env : Env) (fs : FS) (name body : String) (tc cc : Nat) : FetchOut :=
  if name ≠ "" then
    match env.writeErr name with
    | some e => ⟨.error (.cacheWrite e), fs, tc, cc⟩
    | none => ⟨.ok body, FS.put fs name body, tc, cc⟩
  else ⟨.ok body, fs, tc, cc⟩

/-- Source `doRequest`: check the cache once at entry (returning the raw read
outcome on a hit), otherwise call the transport; on a non-200 status below
the retry budget, recurse with the attempt count incremented; on 200,
persist when caching is enabled.  `k` indexes the next transport
invocation. -/
def doRequest (env : Env) (fs : FS) (method url : String) (retryCount : Nat)
    (v : List String) (k : Nat) : FetchOut :=
  let name := cacheName env.cfg method url v
  if name ≠ "" ∧ fileExist fs name then
    let r := FS.readFile fs name
    match r.2 with
    | some e => ⟨.error (.cacheRead e), fs, 0, 1⟩
    | none => ⟨.ok r.1, fs, 0, 1⟩
  else
    match env.transport k with
    | .err e => ⟨.error (.transportErr e), fs, 1, 1⟩
    | .resp status body =>
      if status ≠ 200 then
        if h : retryCount < env.cfg.retryCount then
          let r := doRequest env fs method url (retryCount + 1) v (k + 1)
          ⟨r.result, r.fs, r.transportCalls + 1, r.cacheChecks + 1⟩
        else ⟨.error (.statusCode status), fs, 1, 1⟩
      else successOut env fs name body 1 1
termination_by env.cfg.retryCount - retryCount

/-- Source `Get`: a GET fetch starting with a zero attempt count. -/
def Get (env : Env) (fs : FS) (url : String) (v : List String) : FetchOut :=
  doRequest env fs "GET" url 0 v 0

/-- Source `Post`: a POST fetch starting with a zero attempt count. -/
def Post (env : Env) (fs : FS) (url : String) (v : List String) : FetchOut :=
  doRequest env fs "POST" url 0 v 0

/-- Cache probe shared by the alternate strategies: a hit only when the name
is cache-enabled, the entry exists, the read succeeds and the data is
nonempty; anything else falls through to the network. -/
def altCacheHit (fs : FS) (name : String) : Option String :=
  if name ≠ "" ∧ fileExist fs name then
    let r := FS.readFile fs name
    if r.2 = none ∧ r.1 ≠ "" then some r.1 else none
  else none

/-- Result of an alternate-strategy fetch: the returned value, the resulting
filesystem, and how many times the network collaborator ran. -/
structure AltOut where
  result : Except ReqError String
  fs : FS
  networkCalls : Nat
deriving Repr

/-- Source `ChromeGet`: serve a nonempty readable cache entry, otherwise run
the browser session (its outcome is the `browserRun` collaborator) and
persist the rendered body when caching is enabled. -/
def ChromeGet (env : Env) (fs : FS) (browserRun : Except String String)
    (url : String) : AltOut :=
  let name := cacheName env.cfg "GET" url []
  match altCacheHit fs name with
  | some data => ⟨.ok data, fs, 0⟩
  | none =>
    match browserRun with
    | .error e => ⟨.error (.browser e), fs, 1⟩
    | .ok body =>
      if name ≠ "" then
        match env.writeErr name with
        | some e => ⟨.error (.cacheWrite e), fs, 1⟩
        | none => ⟨.ok body, FS.put fs name body, 1⟩
      else ⟨.ok body, fs, 1⟩

/-- Argument list handed to the curl subprocess: the URL then flattened
header pairs. -/
def curlArgs (url : String) (headers : List (String × String)) : List String :=
  url :: headers.foldr (fun kv acc => "-H" :: (kv.1 ++ ": " ++ kv.2) :: acc) []

/-- Source `CurlGet`: serve a nonempty readable cache entry, otherwise run
the curl subprocess (the `curlRun` collaborator applied to the argument
list, only the first header map being used) and persist its standard
output when caching is enabled. -/
def CurlGet (env : Env) (fs : FS) (curlRun : List String → Except String String)
    (url : String) (headers : List (List (String × String))) : AltOut :=
  let name := cacheName env.cfg "GET" url []
  match altCacheHit fs name with
  | some data => ⟨.ok data, fs, 0⟩
  | none =>
    match curlRun (curlArgs url (headers.headD [])) with
    | .error e => ⟨.error (.subprocess e), fs, 1⟩
    | .ok output =>
      if name ≠ "" then
        match env.writeErr name with
        | some e => ⟨.error (.cacheWrite e), fs, 1⟩
        | none => ⟨.ok output, FS.put fs name output, 1⟩
      else ⟨.ok output, fs, 1⟩

/-- Source `RemoveCache`: delete the cache file of the no-argument GET key
for the URL (the removal itself succeeds in this model). -/
def RemoveCache (env : Env) (fs : FS) (url : String) : FS :=
  fileRemove fs (cacheName env.cfg "GET" url [])

/-- Source `BatchGet`: fan the URL list out, one task per index.  Each
task's `Get` outcome is abstracted by the per-index `outcomes` collaborator;
a failing task records the URL into the results map (the source's error
branch writes `resMap`, not `errMap`), a succeeding one records the body;
every worker returns nil, so `group.Wait` yields no aggregate error.  The
maps are index-keyed, so the sequential fold has the same contents as any
concurrent interleaving. -/
def BatchGet (outcomes : Nat → Except ReqError String) (urls : List String) :
    List (Nat × String) × List (Nat × String) × Option ReqError :=
  let maps := urls.enum.foldl
    (fun (m : List (Nat × String) × List (Nat × String)) iu =>
      match outcomes iu.1 with
      | .error _ => ((iu.1, iu.2) :: m.1, m.2)
      | .ok body => ((iu.1, body) :: m.1, m.2))
    ([], [])
  (maps.1, maps.2, none)

/-! Helper lemmas about the embedding. -/

theorem noHit (fs : FS) (name : String)
    (hmiss : name = "" ∨ FS.lookup fs name = none) :
    ¬(name ≠ "" ∧ fileExist fs name) := by
  rintro ⟨hne, hex⟩
  rcases hmiss with h | h
  · exact hne h
  · simp [fileExist, h] at hex

theorem successOut_bump (env : Env) (fs : FS) (name body : String) (tc cc : Nat) :
    (⟨(successOut env fs name body tc cc).result, (successOut env fs name body tc cc).fs,
      (successOut env fs name body tc cc).transportCalls + 1,
      (successOut env fs name body tc cc).cacheChecks + 1⟩ : FetchOut) =
      successOut env fs name body (tc + 1) (cc + 1) := by
  unfold successOut
  split
  · cases env.writeErr name <;> simp
  · rfl

theorem doRequest_all_fail (env : Env) (method url : String) (v : List String)
    (s : Nat → Nat) (b : Nat → String)
    (hs : ∀ n, env.transport n = .resp (s n) (b n)) (h200 : ∀ n, s n ≠ 200) :
    ∀ d rc k (fs : FS), rc + d = env.cfg.retryCount →
      (cacheName env.cfg method url v = "" ∨
        FS.lookup fs (cacheName env.cfg method url v) = none) →
      doRequest env fs method url rc v k =
        ⟨.error (.statusCode (s (k + d))), fs, d + 1, d + 1⟩ := by
  intro d
  induction d with
  | zero =>
    intro rc k fs hrc hmiss
    unfold doRequest
    rw [if_neg (noHit _ _ hmiss), hs k]
    simp only
    rw [if_pos (h200 k), dif_neg (by omega)]
    simp
  | succ d ih =>
    intro rc k fs hrc hmiss
    unfold doRequest
    rw [if_neg (noHit _ _ hmiss), hs k]
    simp only
    rw [if_pos (h200 k), dif_pos (by omega)]
    rw [ih (rc + 1) (k + 1) fs (by omega) hmiss]
    have hk : k + 1 + d = k + (d + 1) := by omega
    rw [hk]

theorem doRequest_success_at (env : Env) (method url : String) (v : List String)
    (body : String) :
    ∀ j rc k (fs : FS), rc + j ≤ env.cfg.retryCount →
      (cacheName env.cfg method url v = "" ∨
        FS.lookup fs (cacheName env.cfg method url v) = none) →
      (∀ n, k ≤ n → n < k + j → ∃ sn bn, env.transport n = .resp sn bn ∧ sn ≠ 200) →
      env.transport (k + j) = .resp 200 body →
      doRequest env fs method url rc v k =
        successOut env fs (cacheName env.cfg method url v) body (j + 1) (j + 1) := by
  intro j
  induction j with
  | zero =>
    intro rc k fs hle hmiss hpre h200
    unfold doRequest
    rw [if_neg (noHit _ _ hmiss)]
    rw [show k + 0 = k from rfl] at h200
    rw [h200]
    simp only
    rw [if_neg (by simp)]
  | succ j ih =>
    intro rc k fs hle hmiss hpre h200
    obtain ⟨sn, bn, hsn, hne⟩ := hpre k (Nat.le_refl k) (by omega)
    unfold doRequest
    rw [if_neg (noHit _ _ hmiss), hsn]
    simp only
    rw [if_pos hne, dif_pos (by omega)]
    rw [ih (rc + 1) (k + 1) fs (by omega) hmiss
      (fun n h1 h2 => hpre n (by omega) (by omega))
      (by rw [show k + 1 + j = k + (j + 1) from by omega]; exact h200)]
    exact successOut_bump env fs _ body (j + 1) (j + 1)

theorem doRequest_miss_transport_pos (env : Env) (fs : FS) (method url : String)
    (rc : Nat) (v : List String) (k : Nat)
    (hmiss : cacheName env.cfg method url v = "" ∨
      FS.lookup fs (cacheName env.cfg method url v) = none) :
    1 ≤ (doRequest env fs method url rc v k).transportCalls := by
  unfold doRequest
  rw [if_neg (noHit _ _ hmiss)]
  cases env.transport k with
  | err e => simp
  | resp status body =>
    simp only
    split
    · split
      · simp
      · simp
    · unfold successOut
      split
      · cases env.writeErr (cacheName env.cfg method url v) <;> simp
      · simp

theorem doRequest_hit (env : Env) (fs : FS) (method url : String)
    (rc : Nat) (v : List String) (k : Nat) (entry : FileEntry)
    (hname : cacheName env.cfg method url v ≠ "")
    (hin : FS.lookup fs (cacheName env.cfg method url v) = some entry) :
    doRequest env fs method url rc v k =
      ⟨match entry.readErr with
        | some e => .error (.cacheRead e)
        | none => .ok entry.data, fs, 0, 1⟩ := by
  obtain ⟨edata, eerr⟩ := entry
  unfold doRequest
  rw [if_pos ⟨hname, by simp [fileExist, hin]⟩]
  unfold FS.readFile
  rw [hin]
  cases eerr <;> simp

theorem append_ne_empty_left (a b : String) (h : a ≠ "") : a ++ b ≠ "" := by
  intro he
  apply h
  have hd : (a ++ b).data = ([] : List Char) := by rw [he]
  rw [String.data_append a b] at hd
  rcases List.append_eq_nil.mp hd with ⟨h1, _⟩
  exact String.ext h1

theorem ne_empty_length_pos (s : String) (h : s ≠ "") : 0 < s.length := by
  rcases Nat.eq_zero_or_pos s.length with hz | hp
  · exact absurd (String.ext (List.eq_nil_of_length_eq_zero hz)) h
  · exact hp

theorem cacheName_ne_empty (cfg : Config) (method url : String) (v : List String)
    (h : cfg.cachePath ≠ "") : cacheName cfg method url v ≠ "" := by
  unfold cacheName
  rw [if_pos h]
  exact append_ne_empty_left _ _ (append_ne_empty_left _ _ (append_ne_empty_left _ _
    (append_ne_empty_left _ _ (append_ne_empty_left _ _ h))))

theorem cacheName_congr (cfg : Config) (method u1 u2 : String)
    (v1 v2 : List String)
    (h : u1 ++ serializeArgs v1 = u2 ++ serializeArgs v2) :
    cacheName cfg method u1 v1 = cacheName cfg method u2 v2 := by
  unfold cacheName
  rw [h]

theorem cacheName_method_inj (cfg : Config) (m1 m2 url : String)
    (v : List String) (hpath : cfg.cachePath ≠ "") (hm : m1 ≠ m2) :
    cacheName cfg m1 url v ≠ cacheName cfg m2 url v := by
  unfold cacheName
  rw [if_pos hpath, if_pos hpath]
  intro he
  apply hm
  have hd := congrArg String.data he
  simp only [String.data_append, List.append_assoc] at hd
  have h1 := List.append_cancel_left hd
  have h2 := List.append_cancel_left h1
  have h3 := List.append_cancel_left h2
  have h4 := List.append_cancel_left h3
  exact String.ext (List.append_cancel_right h4)

theorem lookup_cons_self (k : String) (e : FileEntry) (t : FS) :
    FS.lookup ((k, e) :: t) k = some e := by
  unfold FS.lookup
  rw [if_pos rfl]

theorem lookup_remove_self (fs : FS) (name : String) :
    FS.lookup (FS.remove fs name) name = none := by
  induction fs with
  | nil => rfl
  | cons p rest ih =>
    obtain ⟨k, e⟩ := p
    unfold FS.remove
    by_cases hk : k = name
    · rw [if_pos hk]; exact ih
    · rw [if_neg hk]
      unfold FS.lookup
      rw [if_neg hk]
      exact ih

theorem lookup_fileRemove_self (fs : FS) (name : String) (h : name ≠ "") :
    FS.lookup (fileRemove fs name) name = none := by
  unfold fileRemove
  split
  · exact lookup_remove_self fs name
  · rename_i hcond
    rw [Decidable.not_and_iff_or_not] at hcond
    rcases hcond with h1 | h2
    · exact absurd (ne_empty_length_pos name h) h1
    · simp [fileExist] at h2
      exact h2

theorem lookup_put_self (fs : FS) (name body : String) :
    FS.lookup (FS.put fs name body) name = some ⟨body, none⟩ := by
  unfold FS.put FS.lookup
  rw [if_pos rfl]

theorem altCacheHit_none_of_bad (fs : FS) (name : String) (entry : FileEntry)
    (hin : FS.lookup fs name = some entry)
    (hbad : entry.readErr ≠ none ∨ entry.data = "") :
    altCacheHit fs name = none := by
  unfold altCacheHit
  split
  · unfold FS.readFile
    rw [hin]
    rw [if_neg]
    rintro ⟨he, hd⟩
    rcases hbad with h | h
    · exact h he
    · exact hd h
  · rfl

theorem altCacheHit_none_of_miss (fs : FS) (name : String)
    (h : FS.lookup fs name = none) : altCacheHit fs name = none := by
  unfold altCacheHit
  rw [if_neg]
  rintro ⟨_, hex⟩
  simp [fileExist, h] at hex

theorem altCacheHit_some (fs : FS) (name : String) (entry : FileEntry)
    (hname : name ≠ "")
    (hin : FS.lookup fs name = some entry)
    (he : entry.readErr = none) (hd : entry.data ≠ "") :
    altCacheHit fs name = some entry.data := by
  unfold altCacheHit
  rw [if_pos ⟨hname, by simp [fileExist, hin]⟩]
  unfold FS.readFile
  rw [hin, if_pos ⟨he, hd⟩]

theorem ChromeGet_hit (env : Env) (fs : FS) (browserRun : Except String String)
    (url data : String)
    (hhit : altCacheHit fs (cacheName env.cfg "GET" url []) = some data) :
    ChromeGet env fs browserRun url = ⟨.ok data, fs, 0⟩ := by
  simp only [ChromeGet]
  rw [hhit]

theorem ChromeGet_miss_networkCalls (env : Env) (fs : FS)
    (browserRun : Except String String) (url : String)
    (hmiss : altCacheHit fs (cacheName env.cfg "GET" url []) = none) :
    (ChromeGet env fs browserRun url).networkCalls = 1 := by
  simp only [ChromeGet]
  rw [hmiss]
  cases browserRun with
  | error e => rfl
  | ok body =>
    simp only
    split
    · cases env.writeErr (cacheName env.cfg "GET" url []) <;> simp
    · rfl

theorem ChromeGet_miss_write (env : Env) (fs : FS) (url body : String)
    (hmiss : altCacheHit fs (cacheName env.cfg "GET" url []) = none)
    (hname : cacheName env.cfg "GET" url [] ≠ "")
    (hw : env.writeErr (cacheName env.cfg "GET" url []) = none) :
    ChromeGet env fs (.ok body) url =
      ⟨.ok body, FS.put fs (cacheName env.cfg "GET" url []) body, 1⟩ := by
  simp only [ChromeGet]
  rw [hmiss]
  simp only
  rw [if_pos hname, hw]

theorem CurlGet_hit (env : Env) (fs : FS)
    (curlRun : List String → Except String String) (url : String)
    (headers : List (List (String × String))) (data : String)
    (hhit : altCacheHit fs (cacheName env.cfg "GET" url []) = some data) :
    CurlGet env fs curlRun url headers = ⟨.ok data, fs, 0⟩ := by
  simp only [CurlGet]
  rw [hhit]

theorem CurlGet_miss_networkCalls (env : Env) (fs : FS)
    (curlRun : List String → Except String String) (url : String)
    (headers : List (List (String × String)))
    (hmiss : altCacheHit fs (cacheName env.cfg "GET" url []) = none) :
    (CurlGet env fs curlRun url headers).networkCalls = 1 := by
  simp only [CurlGet]
  rw [hmiss]
  cases curlRun (curlArgs url (headers.headD [])) with
  | error e => rfl
  | ok output =>
    simp only
    split
    · cases env.writeErr (cacheName env.cfg "GET" url []) <;> simp
    · rfl

/-! Claim theorems. -/

/-- C1: the source's `BatchGet` worker, on a per-item fetch failure, records
the failing URL into the RESULTS map (the error branch writes `resMap`, under
`errMutex`), and the returned error map stays empty — here evaluated at five
URLs where exactly index 2 fails: the results map carries every index once
(index 2 bound to its URL), the error map is `[]`, and the aggregate error is
`none`.  This diverges from the claim, which requires an entry for the
failing index in the returned error map. -/
theorem c1_batch_failure_lands_in_result_map :
    BatchGet (fun i => if i = 2 then .error (.statusCode 500) else .ok ("b" ++ toString i))
      ["u0", "u1", "u2", "u3", "u4"] =
      ([(4, "b4"), (3, "b3"), (2, "u2"), (1, "b1"), (0, "b0")], [], none) := rfl

/-- C2: with a transport that answers every invocation with a non-200
status, a `Get` or `Post` on a cache miss (or with caching disabled) makes
exactly `retryCount + 1` transport invocations and returns a status error
carrying the status code of the last response. -/
theorem c2_retry_bound (env : Env) (fs : FS) (url : String) (v : List String)
    (s : Nat → Nat) (b : Nat → String)
    (hs : ∀ n, env.transport n = .resp (s n) (b n)) (h200 : ∀ n, s n ≠ 200)
    (hmissG : cacheName env.cfg "GET" url v = "" ∨
      FS.lookup fs (cacheName env.cfg "GET" url v) = none)
    (hmissP : cacheName env.cfg "POST" url v = "" ∨
      FS.lookup fs (cacheName env.cfg "POST" url v) = none) :
    Get env fs url v =
      ⟨.error (.statusCode (s env.cfg.retryCount)), fs,
        env.cfg.retryCount + 1, env.cfg.retryCount + 1⟩ ∧
    Post env fs url v =
      ⟨.error (.statusCode (s env.cfg.retryCount)), fs,
        env.cfg.retryCount + 1, env.cfg.retryCount + 1⟩ := by
  constructor
  · unfold Get
    rw [doRequest_all_fail env "GET" url v s b hs h200 env.cfg.retryCount 0 0 fs
      (by omega) hmissG]
    simp
  · unfold Post
    rw [doRequest_all_fail env "POST" url v s b hs h200 env.cfg.retryCount 0 0 fs
      (by omega) hmissP]
    simp

/-- C2 witness: a transport that always answers 500, retry budget 2, caching
disabled: both `Get` and `Post` invoke the transport three times and fail
with status 500. -/
theorem c2_retry_bound_witness :
    Get ⟨⟨"", 2⟩, fun _ => .resp 500 "x", fun _ => none⟩ [] "u" [] =
      ⟨.error (.statusCode 500), [], 3, 3⟩ ∧
    Post ⟨⟨"", 2⟩, fun _ => .resp 500 "x", fun _ => none⟩ [] "u" [] =
      ⟨.error (.statusCode 500), [], 3, 3⟩ :=
  c2_retry_bound ⟨⟨"", 2⟩, fun _ => .resp 500 "x", fun _ => none⟩ [] "u" []
    (fun _ => 500) (fun _ => "x") (fun _ => rfl)
    (fun _ => (by decide : (500 : Nat) ≠ 200)) (Or.inl rfl) (Or.inl rfl)

/-- C3: when caching is enabled and an entry exists under the derived key,
a fetch (the shared `doRequest` entry state of `Get` and `Post`) performs
zero transport invocations, and when the entry is readable it returns
exactly the stored bytes. -/
theorem c3_cache_short_circuit (env : Env) (fs : FS) (method url : String)
    (v : List String) (entry : FileEntry)
    (hpath : env.cfg.cachePath ≠ "")
    (hin : FS.lookup fs (cacheName env.cfg method url v) = some entry) :
    (doRequest env fs method url 0 v 0).transportCalls = 0 ∧
    (entry.readErr = none →
      (doRequest env fs method url 0 v 0).result = .ok entry.data) := by
  obtain ⟨edata, eerr⟩ := entry
  rw [doRequest_hit env fs method url 0 v 0 ⟨edata, eerr⟩
    (cacheName_ne_empty env.cfg method url v hpath) hin]
  refine ⟨rfl, fun he => ?_⟩
  have he2 : eerr = none := he
  subst he2
  rfl

/-- C3 witness: with a cached readable entry "hello" under the GET key for
"u", the fetch returns "hello" and never touches the transport. -/
theorem c3_cache_short_circuit_witness :
    (doRequest ⟨⟨"/c", 3⟩, fun _ => .resp 500 "x", fun _ => none⟩
      [(cacheName ⟨"/c", 3⟩ "GET" "u" [], ⟨"hello", none⟩)] "GET" "u" 0 [] 0).transportCalls = 0 ∧
    (doRequest ⟨⟨"/c", 3⟩, fun _ => .resp 500 "x", fun _ => none⟩
      [(cacheName ⟨"/c", 3⟩ "GET" "u" [], ⟨"hello", none⟩)] "GET" "u" 0 [] 0).result = .ok "hello" := by
  have h := c3_cache_short_circuit ⟨⟨"/c", 3⟩, fun _ => .resp 500 "x", fun _ => none⟩
    [(cacheName ⟨"/c", 3⟩ "GET" "u" [], ⟨"hello", none⟩)] "GET" "u" [] ⟨"hello", none⟩
    (by decide) (lookup_cons_self _ _ _)
  exact ⟨h.1, h.2 rfl⟩

/-- C4 counterexample: with caching enabled ("/c"), an empty cache, retry
budget 1 and a transport always answering 500, one logical fetch call
performs the cache-existence check twice (once per attempt, because the
retry recurses back through the cache check at the top of `doRequest`), not
exactly once as the claim states. -/
theorem c4_cache_checked_once_counterexample :
    (doRequest ⟨⟨"/c", 1⟩, fun _ => .resp 500 "x", fun _ => none⟩
      [] "GET" "u" 0 [] 0).cacheChecks = 2 ∧
    (doRequest ⟨⟨"/c", 1⟩, fun _ => .resp 500 "x", fun _ => none⟩
      [] "GET" "u" 0 [] 0).cacheChecks ≠ 1 := by
  have h := doRequest_all_fail ⟨⟨"/c", 1⟩, fun _ => .resp 500 "x", fun _ => none⟩
    "GET" "u" [] (fun _ => 500) (fun _ => "x") (fun _ => rfl)
    (fun _ => (by decide : (500 : Nat) ≠ 200)) 1 0 0 [] rfl (Or.inr rfl)
  rw [h]
  exact ⟨rfl, by decide⟩

/-- C4 (amended): during the retry sequence of a single fetch call on a
cache miss, every attempt — the initial one and each retry — issues a
network request, but the cache-existence check is re-evaluated at the start
of every attempt (the recursion re-enters `doRequest`), so the check runs
once per transport invocation rather than exactly once per logical call:
with an all-non-200 transport both counters equal `retryCount + 1`. -/
theorem c4_every_retry_hits_network (env : Env) (fs : FS) (method url : String)
    (v : List String) (s : Nat → Nat) (b : Nat → String)
    (hs : ∀ n, env.transport n = .resp (s n) (b n)) (h200 : ∀ n, s n ≠ 200)
    (hmiss : cacheName env.cfg method url v = "" ∨
      FS.lookup fs (cacheName env.cfg method url v) = none) :
    (doRequest env fs method url 0 v 0).transportCalls = env.cfg.retryCount + 1 ∧
    (doRequest env fs method url 0 v 0).cacheChecks =
      (doRequest env fs method url 0 v 0).transportCalls := by
  rw [doRequest_all_fail env method url v s b hs h200 env.cfg.retryCount 0 0 fs
    (by omega) hmiss]
  exact ⟨rfl, rfl⟩

/-- C4 witness: caching enabled, empty cache, retry budget 2, transport
always 500: three attempts, three cache checks. -/
theorem c4_every_retry_hits_network_witness :
    (doRequest ⟨⟨"/c", 2⟩, fun _ => .resp 500 "x", fun _ => none⟩
      [] "GET" "u" 0 [] 0).transportCalls = 3 ∧
    (doRequest ⟨⟨"/c", 2⟩, fun _ => .resp 500 "x", fun _ => none⟩
      [] "GET" "u" 0 [] 0).cacheChecks =
      (doRequest ⟨⟨"/c", 2⟩, fun _ => .resp 500 "x", fun _ => none⟩
        [] "GET" "u" 0 [] 0).transportCalls :=
  c4_every_retry_hits_network ⟨⟨"/c", 2⟩, fun _ => .resp 500 "x", fun _ => none⟩
    [] "GET" "u" [] (fun _ => 500) (fun _ => "x") (fun _ => rfl)
    (fun _ => (by decide : (500 : Nat) ≠ 200)) (Or.inr rfl)

/-- C5 counterexample: the key hashes the bare concatenation
`url ++ serializedArgs`, so the request for URL `a["b"]` with no arguments
and the request for URL `a` with argument list `["b"]` — different URL and
different args — derive the identical cache key. -/
theorem c5_key_injectivity_counterexample :
    cacheName ⟨"/c", 3⟩ "GET" "a[\"b\"]" [] = cacheName ⟨"/c", 3⟩ "GET" "a" ["b"] ∧
    ("a[\"b\"]" : String) ≠ "a" ∧ ([] : List String) ≠ ["b"] :=
  ⟨cacheName_congr ⟨"/c", 3⟩ "GET" "a[\"b\"]" "a" [] ["b"] (by decide),
    by decide, by decide⟩

/-- C5 (amended): cache-key derivation is deterministic — deriving the key
twice from the same method, url and args yields the same string — and when
caching is enabled two requests with the same url and args but different
methods derive different keys; but requests differing only in url or args
need not derive different keys (the key depends only on the concatenation
`url ++ serializedArgs`, which can coincide for different pairs). -/
theorem c5_cache_key_determinism_amended :
    (∀ (cfg : Config) (method url : String) (v : List String),
      cacheName cfg method url v = cacheName cfg method url v) ∧
    (∀ (cfg : Config) (m1 m2 url : String) (v : List String),
      cfg.cachePath ≠ "" → m1 ≠ m2 →
        cacheName cfg m1 url v ≠ cacheName cfg m2 url v) :=
  ⟨fun _ _ _ _ => rfl,
    fun cfg m1 m2 url v hp hm => cacheName_method_inj cfg m1 m2 url v hp hm⟩

/-- C5 witness: determinism at a concrete key, and GET/POST keys for the
same url differ. -/
theorem c5_cache_key_determinism_amended_witness :
    cacheName ⟨"/c", 3⟩ "GET" "u" [] = cacheName ⟨"/c", 3⟩ "GET" "u" [] ∧
    cacheName ⟨"/c", 3⟩ "GET" "u" [] ≠ cacheName ⟨"/c", 3⟩ "POST" "u" [] :=
  ⟨c5_cache_key_determinism_amended.1 ⟨"/c", 3⟩ "GET" "u" [],
    c5_cache_key_determinism_amended.2 ⟨"/c", 3⟩ "GET" "POST" "u" []
      (by decide) (by decide)⟩

/-- C6: after `RemoveCache url`, a subsequent no-argument `Get` of that URL
cannot take the cache short-circuit path (its key was just removed, or
caching is disabled) and performs at least one transport call. -/
theorem c6_remove_cache_forces_network (env : Env) (fs : FS) (url : String) :
    1 ≤ (Get env (RemoveCache env fs url) url []).transportCalls := by
  unfold Get RemoveCache
  apply doRequest_miss_transport_pos
  by_cases h : cacheName env.cfg "GET" url [] = ""
  · exact Or.inl h
  · exact Or.inr (lookup_fileRemove_self fs _ h)

/-- C7: a fetch that reaches a 200 response (at attempt `j`, after `j`
non-200 responses within the retry budget) with caching enabled persists
the body under the derived key when the write succeeds, and when the write
fails the call returns the write error instead of the fetched body. -/
theorem c7_write_failure_is_hard_error (env : Env) (fs : FS)
    (method url : String) (v : List String) (body : String) (j : Nat)
    (hpath : env.cfg.cachePath ≠ "")
    (hmiss : FS.lookup fs (cacheName env.cfg method url v) = none)
    (hj : j ≤ env.cfg.retryCount)
    (hpre : ∀ n, n < j → ∃ sn bn, env.transport n = .resp sn bn ∧ sn ≠ 200)
    (h200 : env.transport j = .resp 200 body) :
    (env.writeErr (cacheName env.cfg method url v) = none →
      (doRequest env fs method url 0 v 0).result = .ok body ∧
      FS.lookup (doRequest env fs method url 0 v 0).fs
        (cacheName env.cfg method url v) = some ⟨body, none⟩) ∧
    (∀ e, env.writeErr (cacheName env.cfg method url v) = some e →
      (doRequest env fs method url 0 v 0).result = .error (.cacheWrite e)) := by
  have h := doRequest_success_at env method url v body j 0 0 fs (by omega)
    (Or.inr hmiss) (fun n h1 h2 => hpre n (by omega))
    (by rw [show 0 + j = j from by omega]; exact h200)
  rw [h]
  unfold successOut
  rw [if_pos (cacheName_ne_empty env.cfg method url v hpath)]
  constructor
  · intro hw
    rw [hw]
    exact ⟨rfl, lookup_put_self fs (cacheName env.cfg method url v) body⟩
  · intro e hw
    rw [hw]

/-- C7 witness: immediate 200 with body "B", caching enabled, write
succeeding: the call returns "B" and the cache now holds it. -/
theorem c7_write_failure_is_hard_error_witness :
    (doRequest ⟨⟨"/c", 3⟩, fun _ => .resp 200 "B", fun _ => none⟩
      [] "GET" "u" 0 [] 0).result = .ok "B" ∧
    FS.lookup (doRequest ⟨⟨"/c", 3⟩, fun _ => .resp 200 "B", fun _ => none⟩
      [] "GET" "u" 0 [] 0).fs (cacheName ⟨"/c", 3⟩ "GET" "u" []) = some ⟨"B", none⟩ :=
  (c7_write_failure_is_hard_error ⟨⟨"/c", 3⟩, fun _ => .resp 200 "B", fun _ => none⟩
    [] "GET" "u" [] "B" 0 (by decide) rfl (by omega)
    (fun n hn => absurd hn (by omega)) rfl).1 rfl

/-- C8: for every URL list and every combination of per-item fetch outcomes,
the aggregate (third) return value of `BatchGet` is `none`: every worker
returns nil, so the group wait reports no dispatcher-level error. -/
theorem c8_aggregate_error_nil (outcomes : Nat → Except ReqError String)
    (urls : List String) :
    (BatchGet outcomes urls).2.2 = none := rfl

/-- C9: on a cache entry that is unreadable or empty, `ChromeGet` and
`CurlGet` treat it as a miss and run their network collaborator (one network
call), whereas `doRequest` (the `Get`/`Post` path) returns the raw read
outcome — the read error, or the empty stored data — with zero transport
invocations. -/
theorem c9_alt_strategies_refetch_bad_entry (env : Env) (fs : FS)
    (url : String) (entry : FileEntry) (browserRun : Except String String)
    (curlRun : List String → Except String String)
    (headers : List (List (String × String)))
    (hpath : env.cfg.cachePath ≠ "")
    (hin : FS.lookup fs (cacheName env.cfg "GET" url []) = some entry)
    (hbad : entry.readErr ≠ none ∨ entry.data = "") :
    (ChromeGet env fs browserRun url).networkCalls = 1 ∧
    (CurlGet env fs curlRun url headers).networkCalls = 1 ∧
    (doRequest env fs "GET" url 0 [] 0).transportCalls = 0 ∧
    (doRequest env fs "GET" url 0 [] 0).result =
      (match entry.readErr with
        | some e => .error (.cacheRead e)
        | none => .ok entry.data) := by
  have hnone := altCacheHit_none_of_bad fs (cacheName env.cfg "GET" url []) entry hin hbad
  obtain ⟨edata, eerr⟩ := entry
  refine ⟨ChromeGet_miss_networkCalls env fs browserRun url hnone,
    CurlGet_miss_networkCalls env fs curlRun url headers hnone, ?_, ?_⟩
  · rw [doRequest_hit env fs "GET" url 0 [] 0 ⟨edata, eerr⟩
      (cacheName_ne_empty env.cfg "GET" url [] hpath) hin]
  · rw [doRequest_hit env fs "GET" url 0 [] 0 ⟨edata, eerr⟩
      (cacheName_ne_empty env.cfg "GET" url [] hpath) hin]

/-- C9 witness: an existing but empty cached entry for "u": both alternate
strategies make one network call, while the plain fetch returns the empty
string with zero transport calls. -/
theorem c9_alt_strategies_refetch_bad_entry_witness :
    (ChromeGet ⟨⟨"/c", 3⟩, fun _ => .resp 500 "x", fun _ => none⟩
      [(cacheName ⟨"/c", 3⟩ "GET" "u" [], ⟨"", none⟩)] (.ok "B") "u").networkCalls = 1 ∧
    (CurlGet ⟨⟨"/c", 3⟩, fun _ => .resp 500 "x", fun _ => none⟩
      [(cacheName ⟨"/c", 3⟩ "GET" "u" [], ⟨"", none⟩)] (fun _ => .ok "B") "u" []).networkCalls = 1 ∧
    (doRequest ⟨⟨"/c", 3⟩, fun _ => .resp 500 "x", fun _ => none⟩
      [(cacheName ⟨"/c", 3⟩ "GET" "u" [], ⟨"", none⟩)] "GET" "u" 0 [] 0).transportCalls = 0 ∧
    (doRequest ⟨⟨"/c", 3⟩, fun _ => .resp 500 "x", fun _ => none⟩
      [(cacheName ⟨"/c", 3⟩ "GET" "u" [], ⟨"", none⟩)] "GET" "u" 0 [] 0).result = .ok "" :=
  c9_alt_strategies_refetch_bad_entry ⟨⟨"/c", 3⟩, fun _ => .resp 500 "x", fun _ => none⟩
    [(cacheName ⟨"/c", 3⟩ "GET" "u" [], ⟨"", none⟩)] "u" ⟨"", none⟩ (.ok "B")
    (fun _ => .ok "B") [] (by decide) (lookup_cons_self _ _ _) (Or.inr rfl)

/-- C10: `Get` with no args, `ChromeGet`, `CurlGet` and `RemoveCache` all
derive the same no-argument GET cache key, so a (nonempty) body cached by
`ChromeGet` is served as a cache hit to the plain fetch and to `CurlGet`
and `ChromeGet` (zero transport/network calls), and after `RemoveCache`
the shared entry is gone: every strategy goes back to the network. -/
theorem c10_shared_cache_key (env : Env) (fs : FS) (url body : String)
    (browserRun2 : Except String String)
    (curlRun curlRun2 : List String → Except String String)
    (headers : List (List (String × String)))
    (hpath : env.cfg.cachePath ≠ "")
    (hmiss : FS.lookup fs (cacheName env.cfg "GET" url []) = none)
    (hw : env.writeErr (cacheName env.cfg "GET" url []) = none)
    (hbody : body ≠ "") :
    (ChromeGet env fs (.ok body) url).result = .ok body ∧
    (doRequest env (ChromeGet env fs (.ok body) url).fs "GET" url 0 [] 0).result = .ok body ∧
    (doRequest env (ChromeGet env fs (.ok body) url).fs "GET" url 0 [] 0).transportCalls = 0 ∧
    (CurlGet env (ChromeGet env fs (.ok body) url).fs curlRun url headers).result = .ok body ∧
    (CurlGet env (ChromeGet env fs (.ok body) url).fs curlRun url headers).networkCalls = 0 ∧
    (ChromeGet env (ChromeGet env fs (.ok body) url).fs browserRun2 url).networkCalls = 0 ∧
    1 ≤ (doRequest env (RemoveCache env (ChromeGet env fs (.ok body) url).fs url)
      "GET" url 0 [] 0).transportCalls ∧
    (ChromeGet env (RemoveCache env (ChromeGet env fs (.ok body) url).fs url)
      browserRun2 url).networkCalls = 1 ∧
    (CurlGet env (RemoveCache env (ChromeGet env fs (.ok body) url).fs url)
      curlRun2 url headers).networkCalls = 1 := by
  have hname := cacheName_ne_empty env.cfg "GET" url [] hpath
  have hc := ChromeGet_miss_write env fs url body
    (altCacheHit_none_of_miss fs _ hmiss) hname hw
  rw [hc]
  have hlook : FS.lookup (FS.put fs (cacheName env.cfg "GET" url []) body)
      (cacheName env.cfg "GET" url []) = some ⟨body, none⟩ :=
    lookup_put_self fs _ body
  have hhit : altCacheHit (FS.put fs (cacheName env.cfg "GET" url []) body)
      (cacheName env.cfg "GET" url []) = some body :=
    altCacheHit_some _ _ ⟨body, none⟩ hname hlook rfl hbody
  have hmiss2 : FS.lookup (RemoveCache env (FS.put fs (cacheName env.cfg "GET" url []) body) url)
      (cacheName env.cfg "GET" url []) = none := by
    unfold RemoveCache
    exact lookup_fileRemove_self _ _ hname
  refine ⟨rfl, ?_, ?_, ?_, ?_, ?_, ?_, ?_, ?_⟩
  · rw [doRequest_hit env _ "GET" url 0 [] 0 ⟨body, none⟩ hname hlook]
  · rw [doRequest_hit env _ "GET" url 0 [] 0 ⟨body, none⟩ hname hlook]
  · rw [CurlGet_hit env _ curlRun url headers body hhit]
  · rw [CurlGet_hit env _ curlRun url headers body hhit]
  · rw [ChromeGet_hit env _ browserRun2 url body hhit]
  · exact doRequest_miss_transport_pos env _ "GET" url 0 [] 0 (Or.inr hmiss2)
  · exact ChromeGet_miss_networkCalls env _ browserRun2 url
      (altCacheHit_none_of_miss _ _ hmiss2)
  · exact CurlGet_miss_networkCalls env _ curlRun2 url headers
      (altCacheHit_none_of_miss _ _ hmiss2)

/-- C10 witness: after `ChromeGet` caches body "B" for "u", the plain fetch
serves "B" with zero transport calls, and after `RemoveCache` a `ChromeGet`
runs its browser again. -/
theorem c10_shared_cache_key_witness :
    (doRequest ⟨⟨"/c", 3⟩, fun _ => .resp 500 "", fun _ => none⟩
      (ChromeGet ⟨⟨"/c", 3⟩, fun _ => .resp 500 "", fun _ => none⟩ [] (.ok "B") "u").fs
      "GET" "u" 0 [] 0).result = .ok "B" ∧
    (doRequest ⟨⟨"/c", 3⟩, fun _ => .resp 500 "", fun _ => none⟩
      (ChromeGet ⟨⟨"/c", 3⟩, fun _ => .resp 500 "", fun _ => none⟩ [] (.ok "B") "u").fs
      "GET" "u" 0 [] 0).transportCalls = 0 ∧
    (ChromeGet ⟨⟨"/c", 3⟩, fun _ => .resp 500 "", fun _ => none⟩
      (RemoveCache ⟨⟨"/c", 3⟩, fun _ => .resp 500 "", fun _ => none⟩
        (ChromeGet ⟨⟨"/c", 3⟩, fun _ => .resp 500 "", fun _ => none⟩ [] (.ok "B") "u").fs "u")
      (.error "nav") "u").networkCalls = 1 := by
  have h := c10_shared_cache_key ⟨⟨"/c", 3⟩, fun _ => .resp 500 "", fun _ => none⟩
    [] "u" "B" (.error "nav") (fun _ => .error "curl") (fun _ => .error "curl") []
    (by decide) rfl rfl (by decide)
  exact ⟨h.2.1, h.2.2.1, h.2.2.2.2.2.2.2.1⟩

end Req
